import Mathlib

/-!
Verification of the PortExec correlation and safe-termination engine.

The Go source is shallowly embedded: pure helpers become Lean functions,
and the fallible OS surface (process-name lookup, process handles, the
two termination primitives, per-attribute metadata queries, the
connection table) is modelled as explicit record-of-functions parameters,
so that each code path can be evaluated and reasoned about directly.
Process identifiers are modelled as `Int` (Go `int32`; no arithmetic
overflows the width in any modelled path).
-/

namespace PortExec

/-! ## String primitives mirroring the Go standard library helpers -/

/-- Whether the first list is a prefix of the second (byte/char-wise),
as used by `strings.HasPrefix` and the substring scanners. -/
def prefixCheck : List Char → List Char → Bool
  | [], _ => true
  | _ :: _, [] => false
  | c :: cs, d :: ds => c == d && prefixCheck cs ds

/-- `strings.Contains`: scans every position of `s` for `sub`. -/
def scanContains : List Char → List Char → Bool
  | [], sub => sub.isEmpty
  | c :: t, sub => prefixCheck sub (c :: t) || scanContains t sub

/-- The loop of `containsHelper` in `killer.go`: scans position `i` while
`i ≤ len s - len sub` (i.e. while the remaining slice still fits `sub`). -/
def containsHelper : List Char → List Char → Bool
  | [], sub => sub.isEmpty
  | c :: t, sub =>
    if sub.length ≤ t.length + 1 then
      prefixCheck sub (c :: t) || containsHelper t sub
    else false

/-- `contains` from `killer.go` (a hand-rolled, case-sensitive substring check). -/
def goContains (s sub : String) : Bool :=
  decide (sub.length ≤ s.length) &&
    (s == sub || (decide (0 < s.length) && containsHelper s.data sub.data))

/-- `strings.Contains` on `String`. -/
def strContains (s sub : String) : Bool :=
  scanContains s.data sub.data

/-- `strings.ToLower` (character-wise lowering suffices for the ASCII
process names and filter phrases involved). -/
def lowerStr (s : String) : String :=
  ⟨s.data.map Char.toLower⟩

/-- `strings.HasPrefix` on `String`. -/
def hasPrefixStr (s pre : String) : Bool :=
  prefixCheck pre.data s.data

/-! ## Critical-process classifier (`killer.go`, `models` part) -/

/-- The `CriticalSystemProcesses` map literal: explicit `true` verdicts and
the explicit non-critical override (`explorer ↦ false`). -/
def CriticalSystemProcesses : List (String × Bool) :=
  [("System", true), ("wininit", true), ("services", true), ("lsass", true),
   ("svchost", true), ("csrss", true), ("winlogon", true), ("smss", true),
   ("dwm", true), ("explorer", false), ("Registry", true),
   ("smss.exe", true), ("csrss.exe", true), ("wininit.exe", true),
   ("services.exe", true), ("lsass.exe", true), ("svchost.exe", true),
   ("winlogon.exe", true), ("dwm.exe", true)]

/-- Go map read `CriticalSystemProcesses[name]`: the stored value, or the
zero value `false` when the key is absent. -/
def lookupCritical (name : String) : Bool :=
  ((CriticalSystemProcesses.find? (fun p => p.1 == name)).map Prod.snd).getD false

/-- `IsCriticalProcess` from the source: exact table lookup, retry with a
`.exe` suffix appended, then the case-insensitive `svchost` family rule. -/
def IsCriticalProcess (name : String) : Bool :=
  if lookupCritical name then true
  else if lookupCritical (name ++ ".exe") then true
  else if hasPrefixStr (lowerStr name) "svchost" then true
  else false

/-- Base form of a table name: the name with a trailing `.exe` removed
(used to state the claim about base and `.exe`-suffixed forms). -/
def stripExe (s : String) : String :=
  if prefixCheck ".exe".data.reverse s.data.reverse then
    ⟨s.data.take (s.data.length - 4)⟩
  else s

/-! ## Termination Guard (`killer.go`) -/

/-- `Result` from `killer.go`: success flag, message, optional error text. -/
structure Result where
  Success : Bool
  Message : String
  Error : Option String
  deriving DecidableEq, Repr

/-- The OS surface `Killer.Kill` touches: `getProcessName` (which wraps
`process.NewProcess` + `p.Name()`, so an `error` value carries the error
text), a second `process.NewProcess` call (`some e` = failure), and the two
termination primitives `p.Kill()` (forced) and `p.Terminate()` (graceful),
each returning `some e` on failure. -/
structure KillOS where
  procName : Int → Except String String
  newProc : Int → Option String
  killErr : Int → Option String
  termErr : Int → Option String

/-- Observable calls made during a kill: the classifier consultation and
the two OS-level termination primitives. `killPrim` is `p.Kill()` (forced,
unconditional stop); `termPrim` is `p.Terminate()` (graceful request). -/
inductive OsCall where
  | classify (name : String)
  | killPrim (pid : Int)
  | termPrim (pid : Int)
  deriving DecidableEq, Repr

/-- `Killer.handleError`: classify the failure text of the final failed
primitive into an elevation hint or a generic message. -/
def handleError (err : String) (pid : Int) (procName : String) : Result :=
  if goContains err "access is denied" || goContains err "Access is denied" then
    ⟨false, "Access denied. Run as Administrator to kill process " ++ toString pid
      ++ " (" ++ procName ++ ")", some err⟩
  else if goContains err "operation not permitted" then
    ⟨false, "Operation not permitted. Run as Administrator to kill process " ++ toString pid
      ++ " (" ++ procName ++ ")", some err⟩
  else
    ⟨false, "Failed to kill process " ++ toString pid ++ " (" ++ procName ++ "): " ++ err,
      some err⟩

/-- `Killer.Kill`, paired with the trace of classifier and termination-
primitive calls it performs. Mirrors the source order: resolve name,
classify, re-open the process, `p.Kill()` first, `p.Terminate()` only if
`p.Kill()` failed. -/
def Kill (os : KillOS) (pid : Int) : Result × List OsCall :=
  match os.procName pid with
  | .error e => (⟨false, "Failed to get process name: " ++ e, some e⟩, [])
  | .ok procName =>
    if IsCriticalProcess procName then
      (⟨false, "Refusing to kill critical system process: " ++ procName,
        some "critical system process"⟩, [.classify procName])
    else
      match os.newProc pid with
      | some e =>
        (⟨false, "Process " ++ toString pid ++ " not found (may have already terminated)",
          some e⟩, [.classify procName])
      | none =>
        match os.killErr pid with
        | none =>
          (⟨true, "Successfully killed process " ++ toString pid ++ " (" ++ procName ++ ")",
            none⟩, [.classify procName, .killPrim pid])
        | some _ =>
          match os.termErr pid with
          | none =>
            (⟨true, "Successfully killed process " ++ toString pid ++ " (" ++ procName ++ ")",
              none⟩, [.classify procName, .killPrim pid, .termPrim pid])
          | some e2 =>
            (handleError e2 pid procName,
              [.classify procName, .killPrim pid, .termPrim pid])

/-- `Killer.KillWithName`: verify the resolved name matches before
delegating to `Kill`. -/
def KillWithName (os : KillOS) (pid : Int) (expectedName : String) : Result × List OsCall :=
  match os.procName pid with
  | .error e => (⟨false, "Failed to verify process: " ++ e, some e⟩, [])
  | .ok procName =>
    if procName != expectedName then
      (⟨false, "Process name mismatch: expected " ++ expectedName ++ ", got " ++ procName,
        some "process name mismatch"⟩, [])
    else Kill os pid

/-- Case-insensitive substring containment, as the spec's claim phrases it
("any casing of either phrase"). -/
def icontains (s sub : String) : Bool :=
  scanContains (lowerStr s).data (lowerStr sub).data

/-! ## Process Resolver (`getter.go`) -/

/-- `models.ProcessInfo`. `Uptime` and `CreateTime` are in seconds
(`time.Unix(createTime/1000, 0)` truncates the millisecond create time to
seconds; `time.Since` then measures from that instant). -/
structure ProcessInfo where
  PID : Int
  Name : String
  ExePath : String
  ParentPID : Int
  Uptime : Int
  CreateTime : Int
  deriving DecidableEq, Repr

/-- The per-attribute OS queries `Getter.GetProcessInfo` issues:
`newProc` is whether `process.NewProcess` succeeds; each metadata query
returns `none` on failure. `createTime` is milliseconds since the epoch
(non-negative as reported by the OS); `now` is the wall clock in seconds. -/
structure ProcOS where
  newProc : Int → Bool
  name : Int → Option String
  exe : Int → Option String
  ppid : Int → Option Int
  createTime : Int → Option Nat
  now : Int

/-- `Getter.GetProcessInfo`: fails only when the process cannot be opened;
every per-attribute failure is replaced by its documented default. -/
def GetProcessInfo (os : ProcOS) (pid : Int) : Option ProcessInfo :=
  if !os.newProc pid then none
  else
    let name := (os.name pid).getD "unknown"
    let exePath := (os.exe pid).getD ""
    let parentPid := (os.ppid pid).getD 0
    let createTime := (os.createTime pid).getD 0
    let uptime : Int := if 0 < createTime then os.now - ((createTime / 1000 : Nat) : Int) else 0
    some ⟨pid, name, exePath, parentPid, uptime, ((createTime / 1000 : Nat) : Int)⟩

/-! ## Connection Scanner (`model.go`, `ports` part) -/

/-- `models.PortEntry`. -/
structure PortEntry where
  Protocol : String
  LocalAddress : String
  Port : Nat
  PID : Int
  ProcessName : String
  State : String
  ParentPID : Int
  Uptime : Int
  ExePath : String
  IsSystem : Bool
  deriving DecidableEq, Repr

/-- One row of the OS connection table (`gopsutil` `ConnectionStat`):
owning PID, socket type (`1` = TCP, `2` = UDP), raw status string, and the
local address. -/
structure Conn where
  Pid : Int
  ctype : Nat
  Status : String
  LaddrIP : String
  LaddrPort : Nat
  deriving DecidableEq, Repr

/-- The OS surface the Scanner touches: the connection-table snapshot and
the Resolver (`processGetter.GetProcessInfo`), abstracted as a function. -/
structure ScanOS where
  conns : List Conn
  getProcessInfo : Int → Option ProcessInfo

/-- `Scanner.formatState`: map a raw OS status to the canonical display
state; unrecognized statuses pass through verbatim. -/
def formatState (status : String) : String :=
  if status == "LISTEN" then "LISTENING"
  else if status == "ESTABLISHED" then "ESTABLISHED"
  else if status == "TIME_WAIT" then "TIME_WAIT"
  else if status == "CLOSE_WAIT" then "CLOSE_WAIT"
  else if status == "SYN_SENT" then "SYN_SENT"
  else if status == "SYN_RECV" then "SYN_RECV"
  else if status == "FIN_WAIT1" then "FIN_WAIT1"
  else if status == "FIN_WAIT2" then "FIN_WAIT2"
  else if status == "LAST_ACK" then "LAST_ACK"
  else if status == "CLOSING" then "CLOSING"
  else if status == "CLOSED" then "CLOSED"
  else if status == "IDLE" then "IDLE"
  else if status == "BOUND" then "BOUND"
  else status

/-- `containsState`: exact, case-sensitive membership of `state` in the
filter list. -/
def containsState (states : List String) (state : String) : Bool :=
  states.any (fun s => s == state)

/-- `Scanner.protocolString` (type 1 = TCP, type 2 = UDP). -/
def protocolString (t : Nat) : String :=
  if t == 1 then "TCP" else if t == 2 then "UDP" else "UNKNOWN"

/-- Lookup in the per-scan PID cache (the `pidCache` map, modelled as an
association list read at its most recent binding). -/
def cacheLookup : List (Int × ProcessInfo) → Int → Option ProcessInfo
  | [], _ => none
  | (k, v) :: rest, pid => if k == pid then some v else cacheLookup rest pid

/-- `Scanner.getProcessInfo`: consult the per-scan cache, otherwise call
the Resolver and (on success only) record the result. Returns the info and
the updated cache, or `none` when resolution fails. -/
def scannerGetProcessInfo (os : ScanOS) (pid : Int) (cache : List (Int × ProcessInfo)) :
    Option (ProcessInfo × List (Int × ProcessInfo)) :=
  match cacheLookup cache pid with
  | some info => some (info, cache)
  | none =>
    match os.getProcessInfo pid with
    | none => none
    | some info => some (info, (pid, info) :: cache)

/-- The loop body of `Scanner.GetConnections`: skip PID-0 connections,
skip non-TCP/UDP sockets, apply the state filter to the mapped state,
resolve (and cache) process metadata, drop connections whose resolution
fails, and build a `PortEntry` otherwise. -/
def connectionsLoop (os : ScanOS) (states : List String) :
    List Conn → List (Int × ProcessInfo) → List PortEntry
  | [], _ => []
  | conn :: rest, cache =>
    if conn.Pid == 0 then connectionsLoop os states rest cache
    else if conn.ctype != 1 && conn.ctype != 2 then connectionsLoop os states rest cache
    else
      let state := formatState conn.Status
      if decide (0 < states.length) && !containsState states state then
        connectionsLoop os states rest cache
      else
        let localAddr := if conn.LaddrIP == "" then "0.0.0.0" else conn.LaddrIP
        match scannerGetProcessInfo os conn.Pid cache with
        | none => connectionsLoop os states rest cache
        | some (info, cache2) =>
          { Protocol := protocolString conn.ctype
            LocalAddress := localAddr ++ ":" ++ toString conn.LaddrPort
            Port := conn.LaddrPort
            PID := conn.Pid
            ProcessName := info.Name
            State := state
            ParentPID := info.ParentPID
            Uptime := info.Uptime
            ExePath := info.ExePath
            IsSystem := IsCriticalProcess info.Name } :: connectionsLoop os states rest cache2

/-- `Scanner.GetConnections`: a fresh, call-local PID cache for each scan. -/
def GetConnections (os : ScanOS) (states : List String) : List PortEntry :=
  connectionsLoop os states os.conns []

/-- `Scanner.GetListeningPorts`: scan filtered with the lowercase state
list, exactly as written in the source. -/
def GetListeningPorts (os : ScanOS) : List PortEntry :=
  GetConnections os ["listen", "established"]

/-- The raw statuses `formatState` recognizes (its non-default cases). -/
def recognizedStatuses : List String :=
  ["LISTEN", "ESTABLISHED", "TIME_WAIT", "CLOSE_WAIT", "SYN_SENT", "SYN_RECV",
   "FIN_WAIT1", "FIN_WAIT2", "LAST_ACK", "CLOSING", "CLOSED", "IDLE", "BOUND"]

/-! ## FilterCriteria (`killer.go`, `models` part) -/

/-- `models.FilterCriteria`. -/
structure FilterCriteria where
  Port : String
  ProcessName : String
  PID : String
  deriving DecidableEq, Repr

/-- `FilterCriteria.IsEmpty`. -/
def FilterCriteria.IsEmpty (f : FilterCriteria) : Bool :=
  f.Port == "" && f.ProcessName == "" && f.PID == ""

/-- `FilterCriteria.Matches`: logical AND of the non-empty sub-criteria
(the source's early-return chain flattened to conjunctions). -/
def FilterCriteria.Matches (f : FilterCriteria) (entry : PortEntry) : Bool :=
  if f.IsEmpty then true
  else
    (f.Port == "" || f.Port == toString entry.Port
      || strContains (toString entry.Port) f.Port) &&
    (f.ProcessName == ""
      || strContains (lowerStr entry.ProcessName) (lowerStr f.ProcessName)) &&
    (f.PID == "" || f.PID == toString entry.PID
      || strContains (toString entry.PID) f.PID)

/-! ## Helper lemmas -/

theorem dataAppend (s t : String) : (s ++ t).data = s.data ++ t.data := by
  cases s; cases t; rfl

theorem prefixCheck_append (sub s t : List Char) (h : prefixCheck sub s = true) :
    prefixCheck sub (s ++ t) = true := by
  induction sub generalizing s with
  | nil => simp [prefixCheck]
  | cons c cs ih =>
    cases s with
    | nil => simp [prefixCheck] at h
    | cons d ds =>
      simp only [prefixCheck, Bool.and_eq_true] at h
      simp only [List.cons_append, prefixCheck, Bool.and_eq_true]
      exact ⟨h.1, ih ds h.2⟩

theorem scanContains_append_left (s t sub : List Char) (h : scanContains s sub = true) :
    scanContains (s ++ t) sub = true := by
  induction s with
  | nil =>
    simp only [scanContains, List.isEmpty_iff] at h
    subst h
    cases t <;> simp [scanContains, prefixCheck]
  | cons c cs ih =>
    simp only [scanContains, Bool.or_eq_true] at h
    simp only [List.cons_append, scanContains, Bool.or_eq_true]
    rcases h with h | h
    · exact Or.inl (prefixCheck_append _ _ _ h)
    · exact Or.inr (ih h)

/-! ## Claim C1: critical PIDs are refused with no termination attempt -/

/-- Claim C1: for every PID whose resolved process name the classifier
marks critical, `Kill` returns a failed result whose message names the
protected process, and neither OS-level termination primitive (nor the
process handle) is touched — the call's trace holds only the classifier
consultation. -/
theorem C1_critical_refusal (os : KillOS) (pid : Int) (n : String)
    (hname : os.procName pid = Except.ok n) (hcrit : IsCriticalProcess n = true) :
    (Kill os pid).1.Success = false ∧
    (Kill os pid).1.Message = "Refusing to kill critical system process: " ++ n ∧
    (Kill os pid).2 = [OsCall.classify n] := by
  simp [Kill, hname, hcrit]

/-- Witness for C1 at a concrete mocked OS resolving PID 4 to `lsass`. -/
theorem C1_critical_refusal_witness :
    (Kill ⟨fun _ => .ok "lsass", fun _ => none, fun _ => none, fun _ => none⟩ 4).1.Success
        = false ∧
    (Kill ⟨fun _ => .ok "lsass", fun _ => none, fun _ => none, fun _ => none⟩ 4).1.Message
        = "Refusing to kill critical system process: " ++ "lsass" ∧
    (Kill ⟨fun _ => .ok "lsass", fun _ => none, fun _ => none, fun _ => none⟩ 4).2
        = [OsCall.classify "lsass"] :=
  C1_critical_refusal _ 4 "lsass" rfl (by decide)

/-! ## Claim C2: order of the two termination attempts -/

/-- Mocked OS for C2: PID 5 resolves to the non-critical `notepad.exe`,
the process handle opens, and the forced primitive `p.Kill()` succeeds. -/
def c2OS : KillOS := ⟨fun _ => .ok "notepad.exe", fun _ => none, fun _ => none, fun _ => none⟩

/-- Counterexample to C2 as stated: on a non-critical PID a single `Kill`
call performs exactly one OS-level attempt, and it is the forced primitive
`p.Kill()` — no graceful attempt precedes it (none occurs at all), refuting
"first attempts graceful termination ... the graceful one always comes
first". -/
theorem C2_counterexample :
    (Kill c2OS 5).1.Success = true ∧
    (Kill c2OS 5).2 = [OsCall.classify "notepad.exe", OsCall.killPrim 5] := by
  decide

/-- Claim C2 (amended): for every non-critical PID, a single `Kill` call
first attempts the forced primitive (`p.Kill()`), and only if that fails
does it attempt the graceful primitive (`p.Terminate()`) as a fallback, so
at most two OS-level attempts occur and the forced one always comes first. -/
theorem C2_forced_then_graceful (os : KillOS) (pid : Int) (n : String)
    (hname : os.procName pid = Except.ok n) (hcrit : IsCriticalProcess n = false)
    (hproc : os.newProc pid = none) :
    (os.killErr pid = none →
      (Kill os pid).2 = [OsCall.classify n, OsCall.killPrim pid] ∧
        (Kill os pid).1.Success = true) ∧
    (∀ e, os.killErr pid = some e →
      (Kill os pid).2 = [OsCall.classify n, OsCall.killPrim pid, OsCall.termPrim pid]) := by
  constructor
  · intro hk
    simp [Kill, hname, hcrit, hproc, hk]
  · intro e hk
    cases ht : os.termErr pid <;> simp [Kill, hname, hcrit, hproc, hk, ht]

/-- Witness for C2's amended theorem on the concrete mocked OS. -/
theorem C2_forced_then_graceful_witness :
    (Kill c2OS 5).2 = [OsCall.classify "notepad.exe", OsCall.killPrim 5] ∧
    (Kill c2OS 5).1.Success = true :=
  (C2_forced_then_graceful c2OS 5 "notepad.exe" rfl (by decide) rfl).1 rfl

/-! ## Claim C4: classifier verdicts on base and `.exe` forms -/

/-- Counterexample to C4 as stated: `System` appears in the critical table
with a critical verdict, yet `IsCriticalProcess` on its `.exe`-suffixed
form returns false (the lookup only ever appends `.exe`, never strips it,
and `System.exe` itself is not in the table). -/
theorem C4_counterexample :
    lookupCritical "System" = true ∧
    IsCriticalProcess "System" = true ∧
    IsCriticalProcess ("System" ++ ".exe") = false := by
  decide

/-- Claim C4 (amended): for every name in the critical table with a
critical verdict, `IsCriticalProcess` returns true on its base form, and
also on its `.exe`-suffixed base form except for `System` and `Registry`
(whose `.exe` variants are absent from the table and unrecognized); for
every name with an explicit non-critical override, it returns false on
both forms. -/
theorem C4_table_verdicts :
    (CriticalSystemProcesses.all (fun p =>
      if p.2 then
        IsCriticalProcess (stripExe p.1) &&
          (stripExe p.1 == "System" || stripExe p.1 == "Registry" ||
            IsCriticalProcess (stripExe p.1 ++ ".exe"))
      else
        !IsCriticalProcess (stripExe p.1) &&
          !IsCriticalProcess (stripExe p.1 ++ ".exe"))) = true ∧
    IsCriticalProcess ("System" ++ ".exe") = false ∧
    IsCriticalProcess ("Registry" ++ ".exe") = false := by
  decide

/-! ## Claim C6: classification of the final failure message -/

/-- Counterexample to C6 as stated: `"ACCESS IS DENIED"` contains
"access is denied" as a case-insensitive substring, yet `handleError`
produces the generic message embedding the raw error text, with no
elevation advice — the source's match is case-sensitive, covering only the
exact spellings "access is denied", "Access is denied" and
"operation not permitted". -/
theorem C6_counterexample :
    icontains "ACCESS IS DENIED" "access is denied" = true ∧
    (handleError "ACCESS IS DENIED" 7 "myapp").Success = false ∧
    (handleError "ACCESS IS DENIED" 7 "myapp").Message
      = "Failed to kill process 7 (myapp): ACCESS IS DENIED" ∧
    strContains (handleError "ACCESS IS DENIED" 7 "myapp").Message "Run as Administrator"
      = false := by
  decide

/-- Claim C6 (amended): when both termination attempts fail, the failed
result's message advises privilege elevation ("Run as Administrator")
whenever the underlying OS error message contains "access is denied",
"Access is denied" or "operation not permitted" as a case-sensitive
substring, and otherwise embeds the raw error text; the success flag is
false in every case. -/
theorem C6_error_classification (e : String) (pid : Int) (n : String) :
    (handleError e pid n).Success = false ∧
    ((goContains e "access is denied" || goContains e "Access is denied"
        || goContains e "operation not permitted") = true →
      strContains (handleError e pid n).Message "Run as Administrator" = true) ∧
    ((goContains e "access is denied" || goContains e "Access is denied"
        || goContains e "operation not permitted") = false →
      (handleError e pid n).Message
        = "Failed to kill process " ++ toString pid ++ " (" ++ n ++ "): " ++ e) := by
  refine ⟨?_, ?_, ?_⟩
  · unfold handleError
    split_ifs <;> rfl
  · intro h
    unfold handleError
    split_ifs with h1 h2
    · show scanContains _ _ = true
      have hd : (("Access denied. Run as Administrator to kill process " ++ toString pid
            ++ " (" ++ n ++ ")") : String).data
          = ("Access denied. Run as Administrator to kill process ").data
            ++ ((toString pid).data ++ ((" (").data ++ (n.data ++ (")").data))) := by
        simp [dataAppend, List.append_assoc]
      rw [hd]
      exact scanContains_append_left _ _ _ (by decide)
    · show scanContains _ _ = true
      have hd : (("Operation not permitted. Run as Administrator to kill process "
            ++ toString pid ++ " (" ++ n ++ ")") : String).data
          = ("Operation not permitted. Run as Administrator to kill process ").data
            ++ ((toString pid).data ++ ((" (").data ++ (n.data ++ (")").data))) := by
        simp [dataAppend, List.append_assoc]
      rw [hd]
      exact scanContains_append_left _ _ _ (by decide)
    · rw [Bool.or_eq_true] at h
      rcases h with h | h
      · exact absurd h h1
      · exact absurd h h2
  · intro h
    rw [Bool.or_eq_false_iff, Bool.or_eq_false_iff] at h
    unfold handleError
    rw [h.1.1, h.1.2, h.2]
    rfl

/-- Witness for C6's amended theorem: an error text matched case-
sensitively yields the elevation hint, and an unmatched one yields the
generic message embedding the raw text. -/
theorem C6_error_classification_witness :
    (handleError "open: access is denied" 7 "x").Success = false ∧
    strContains (handleError "open: access is denied" 7 "x").Message "Run as Administrator"
      = true ∧
    (handleError "weird failure" 8 "y").Message
      = "Failed to kill process " ++ toString (8 : Int) ++ " (" ++ "y" ++ "): "
        ++ "weird failure" :=
  ⟨(C6_error_classification "open: access is denied" 7 "x").1,
   (C6_error_classification "open: access is denied" 7 "x").2.1 (by decide),
   (C6_error_classification "weird failure" 8 "y").2.2 (by decide)⟩

/-! ## Claim C7: name verification before kill -/

/-- Claim C7: `KillWithName` resolves the current process name and, when
it differs from `expectedName`, returns an immediate failed mismatch
result with an empty call trace (so neither the classifier nor any
termination primitive is invoked); only on exact equality does it delegate
to `Kill`. -/
theorem C7_verified_kill (os : KillOS) (pid : Int) (expectedName n : String)
    (hname : os.procName pid = Except.ok n) :
    (n ≠ expectedName →
      KillWithName os pid expectedName
        = (⟨false, "Process name mismatch: expected " ++ expectedName ++ ", got " ++ n,
            some "process name mismatch"⟩, [])) ∧
    (n = expectedName → KillWithName os pid expectedName = Kill os pid) := by
  constructor
  · intro hne
    simp [KillWithName, hname, hne]
  · intro he
    subst he
    simp [KillWithName, hname]

/-- Witness for C7 at a mocked OS resolving PID 9 to `bar` while the
caller expects `foo`. -/
theorem C7_verified_kill_witness :
    KillWithName ⟨fun _ => .ok "bar", fun _ => none, fun _ => none, fun _ => none⟩ 9 "foo"
      = (⟨false, "Process name mismatch: expected " ++ "foo" ++ ", got " ++ "bar",
          some "process name mismatch"⟩, []) :=
  (C7_verified_kill _ 9 "foo" "bar" rfl).1 (by decide)

/-! ## Claim C3: the listening-ports filter never matches canonical states -/

/-- No recognized raw status maps to a state in the lowercase filter list
`["listen", "established"]` (the mapping emits uppercase canonical names
and the membership test is case-sensitive exact equality). -/
theorem recognized_not_in_filter :
    ∀ s ∈ recognizedStatuses,
      containsState ["listen", "established"] (formatState s) = false := by
  decide

theorem c3Aux (os : ScanOS) (conns : List Conn)
    (h : ∀ c ∈ conns, c.Status ∈ recognizedStatuses) :
    ∀ cache, connectionsLoop os ["listen", "established"] conns cache = [] := by
  induction conns with
  | nil => intro cache; rfl
  | cons conn rest ih =>
    intro cache
    have hhead : conn.Status ∈ recognizedStatuses := h conn (by simp)
    have htail : ∀ c ∈ rest, c.Status ∈ recognizedStatuses :=
      fun c hc => h c (by simp [hc])
    have hstate := recognized_not_in_filter conn.Status hhead
    simp [connectionsLoop, hstate, ih htail]

/-- Claim C3: `GetListeningPorts` filters with the lowercase list
`["listen", "established"]`, while `formatState` emits only uppercase
canonical names for recognized statuses and `containsState` compares
case-sensitively; hence for every connection table whose raw statuses are
all recognized canonical forms (in particular `LISTEN` and `ESTABLISHED`),
`GetListeningPorts` returns the empty list. -/
theorem C3_listening_ports_empty (os : ScanOS)
    (h : ∀ c ∈ os.conns, c.Status ∈ recognizedStatuses) :
    (∀ s ∈ recognizedStatuses,
      containsState ["listen", "established"] (formatState s) = false) ∧
    GetListeningPorts os = [] :=
  ⟨recognized_not_in_filter, c3Aux os os.conns h []⟩

/-- Mocked connection table for C3: one LISTEN TCP socket and one
ESTABLISHED UDP socket, both owned by resolvable processes. -/
def c3OS : ScanOS :=
  ⟨[⟨42, 1, "LISTEN", "", 8080⟩, ⟨43, 2, "ESTABLISHED", "10.0.0.1", 443⟩],
   fun p => some ⟨p, "app", "", 1, 0, 0⟩⟩

/-- Witness for C3: even with live LISTEN/ESTABLISHED connections present,
`GetListeningPorts` comes back empty. -/
theorem C3_listening_ports_empty_witness :
    (∀ s ∈ recognizedStatuses,
      containsState ["listen", "established"] (formatState s) = false) ∧
    GetListeningPorts c3OS = [] :=
  C3_listening_ports_empty c3OS (by decide)

/-! ## Claim C5: invariants of every scan entry -/

/-- The per-scan cache only ever holds what the Resolver answered. -/
def CacheOK (os : ScanOS) (cache : List (Int × ProcessInfo)) : Prop :=
  ∀ pid info, cacheLookup cache pid = some info → os.getProcessInfo pid = some info

theorem cacheOK_nil (os : ScanOS) : CacheOK os [] := by
  intro pid info h
  simp [cacheLookup] at h

theorem scannerGet_spec (os : ScanOS) (pid : Int) (cache : List (Int × ProcessInfo))
    (hc : CacheOK os cache) (info : ProcessInfo) (cache2 : List (Int × ProcessInfo))
    (h : scannerGetProcessInfo os pid cache = some (info, cache2)) :
    os.getProcessInfo pid = some info ∧ CacheOK os cache2 := by
  unfold scannerGetProcessInfo at h
  cases hl : cacheLookup cache pid with
  | some i =>
    rw [hl] at h
    injection h with h
    injection h with h1 h2
    subst h1; subst h2
    exact ⟨hc pid i hl, hc⟩
  | none =>
    rw [hl] at h
    cases hg : os.getProcessInfo pid with
    | none => rw [hg] at h; cases h
    | some i =>
      rw [hg] at h
      injection h with h
      injection h with h1 h2
      subst h1; subst h2
      refine ⟨rfl, ?_⟩
      intro pid' info' h'
      unfold cacheLookup at h'
      split at h'
      · rename_i hb
        injection h' with h'
        subst h'
        rw [← eq_of_beq hb]
        exact hg
      · exact hc pid' info' h'

theorem c5Aux (os : ScanOS) (states : List String) (conns : List Conn) :
    ∀ cache, CacheOK os cache →
      ∀ e ∈ connectionsLoop os states conns cache,
        e.PID ≠ 0 ∧ (e.Protocol = "TCP" ∨ e.Protocol = "UDP") ∧
          ∃ info, os.getProcessInfo e.PID = some info ∧ e.ProcessName = info.Name := by
  induction conns with
  | nil => intro cache _ e he; simp [connectionsLoop] at he
  | cons conn rest ih =>
    intro cache hc e he
    simp only [connectionsLoop] at he
    split at he
    · exact ih cache hc e he
    · rename_i hpid
      split at he
      · exact ih cache hc e he
      · rename_i htype
        split at he
        · exact ih cache hc e he
        · split at he
          · exact ih cache hc e he
          · rename_i info cache2 hsome
            rcases List.mem_cons.mp he with rfl | he
            · refine ⟨?_, ?_, ?_⟩
              · simpa using hpid
              · have hty : conn.ctype = 1 ∨ conn.ctype = 2 := by
                  rcases eq_or_ne conn.ctype 1 with h1 | h1
                  · exact Or.inl h1
                  · rcases eq_or_ne conn.ctype 2 with h2 | h2
                    · exact Or.inr h2
                    · exact absurd (by simp [h1, h2]) htype
                rcases hty with hty | hty <;> simp [protocolString, hty]
              · obtain ⟨hg, _⟩ := scannerGet_spec os conn.Pid cache hc info cache2 hsome
                exact ⟨info, hg, rfl⟩
            · obtain ⟨_, hc2⟩ := scannerGet_spec os conn.Pid cache hc info cache2 hsome
              exact ih cache2 hc2 e he

/-- Claim C5: every entry returned by a scan has a non-zero PID, protocol
TCP or UDP, and process metadata that the Resolver successfully produced
(connections with PID 0, non-TCP/UDP sockets, and failed resolutions are
dropped). -/
theorem C5_scan_entry_invariant (os : ScanOS) (states : List String) (e : PortEntry)
    (he : e ∈ GetConnections os states) :
    e.PID ≠ 0 ∧ (e.Protocol = "TCP" ∨ e.Protocol = "UDP") ∧
      ∃ info, os.getProcessInfo e.PID = some info ∧ e.ProcessName = info.Name :=
  c5Aux os states os.conns [] (cacheOK_nil os) e he

/-- Mocked table for C5: a resolvable TCP listener, a PID-0 connection,
and a non-TCP/UDP socket (type 3). -/
def c5OS : ScanOS :=
  ⟨[⟨42, 1, "LISTEN", "127.0.0.1", 8080⟩, ⟨0, 1, "LISTEN", "", 80⟩, ⟨43, 3, "LISTEN", "", 81⟩],
   fun p => if p == 42 then some ⟨42, "node.exe", "", 1, 100, 5⟩ else none⟩

/-- Witness for C5 on the single surviving entry of the mocked scan. -/
theorem C5_scan_entry_invariant_witness :
    (⟨"TCP", "127.0.0.1:8080", 8080, 42, "node.exe", "LISTENING", 1, 100, "", false⟩
        : PortEntry).PID ≠ 0 ∧
    ((⟨"TCP", "127.0.0.1:8080", 8080, 42, "node.exe", "LISTENING", 1, 100, "", false⟩
        : PortEntry).Protocol = "TCP" ∨
      (⟨"TCP", "127.0.0.1:8080", 8080, 42, "node.exe", "LISTENING", 1, 100, "", false⟩
        : PortEntry).Protocol = "UDP") ∧
    ∃ info, c5OS.getProcessInfo
        (⟨"TCP", "127.0.0.1:8080", 8080, 42, "node.exe", "LISTENING", 1, 100, "", false⟩
          : PortEntry).PID = some info ∧
      (⟨"TCP", "127.0.0.1:8080", 8080, 42, "node.exe", "LISTENING", 1, 100, "", false⟩
          : PortEntry).ProcessName = info.Name :=
  C5_scan_entry_invariant c5OS [] _ (by decide)

/-! ## Claim C8: resolver defaults and the derived uptime -/

/-- Claim C8: for a found process, each attribute whose OS query fails is
replaced by its documented default (name `"unknown"`, executable path `""`,
parent identifier 0, start time zero) instead of the call failing, and the
derived uptime is wall-clock-now minus the (second-truncated) start time
when the fetched create time is non-zero, and zero otherwise. -/
theorem C8_resolver_defaults (os : ProcOS) (pid : Int) (h : os.newProc pid = true) :
    ∃ info, GetProcessInfo os pid = some info ∧
      (os.name pid = none → info.Name = "unknown") ∧
      (os.exe pid = none → info.ExePath = "") ∧
      (os.ppid pid = none → info.ParentPID = 0) ∧
      (os.createTime pid = none → info.CreateTime = 0 ∧ info.Uptime = 0) ∧
      (∀ ct, os.createTime pid = some ct → ct ≠ 0 →
        info.CreateTime = ((ct / 1000 : Nat) : Int) ∧
          info.Uptime = os.now - info.CreateTime) ∧
      (∀ ct, os.createTime pid = some ct → ct = 0 → info.Uptime = 0) := by
  refine ⟨⟨pid, (os.name pid).getD "unknown", (os.exe pid).getD "",
      (os.ppid pid).getD 0,
      if 0 < (os.createTime pid).getD 0 then
        os.now - (((os.createTime pid).getD 0 / 1000 : Nat) : Int)
      else 0,
      (((os.createTime pid).getD 0 / 1000 : Nat) : Int)⟩, ?_, ?_, ?_, ?_, ?_, ?_, ?_⟩
  · simp [GetProcessInfo, h]
  · intro hn; simp [hn]
  · intro hx; simp [hx]
  · intro hp; simp [hp]
  · intro hct; simp [hct]
  · intro ct hct hne
    have hpos : 0 < ct := Nat.pos_of_ne_zero hne
    simp [hct, hpos]
  · intro ct hct h0
    subst h0
    simp [hct]

/-- Mocked process for C8: the handle opens but every attribute query
fails. -/
def c8OS : ProcOS :=
  ⟨fun _ => true, fun _ => none, fun _ => none, fun _ => none, fun _ => none, 100⟩

/-- Witness for C8: all defaults at once, with zero uptime. -/
theorem C8_resolver_defaults_witness :
    ∃ info, GetProcessInfo c8OS 7 = some info ∧ info.Name = "unknown" ∧
      info.ExePath = "" ∧ info.ParentPID = 0 ∧ info.CreateTime = 0 ∧ info.Uptime = 0 := by
  obtain ⟨info, hi, h1, h2, h3, h4, _, _⟩ := C8_resolver_defaults c8OS 7 rfl
  exact ⟨info, hi, h1 rfl, h2 rfl, h3 rfl, (h4 rfl).1, (h4 rfl).2⟩

/-! ## Claim C9: filter semantics -/

theorem scanContains_nil (s : List Char) : scanContains s [] = true := by
  cases s <;> simp [scanContains, prefixCheck]

/-- Claim C9: the empty criteria object matches every entry, and a
criteria object carrying only a process-name criterion matches exactly the
entries whose process name contains it as a case-insensitive substring; in
particular criterion `CHROME` matches an entry named `chrome.exe`. -/
theorem C9_filter_matches (entry : PortEntry) (p : String) :
    FilterCriteria.Matches ⟨"", "", ""⟩ entry = true ∧
    FilterCriteria.Matches ⟨"", p, ""⟩ entry
      = strContains (lowerStr entry.ProcessName) (lowerStr p) ∧
    FilterCriteria.Matches ⟨"", "CHROME", ""⟩
      ⟨"TCP", "", 80, 1, "chrome.exe", "LISTENING", 0, 0, "", false⟩ = true := by
  refine ⟨rfl, ?_, by decide⟩
  by_cases hp : p = ""
  · subst hp
    have hnil : strContains (lowerStr entry.ProcessName) (lowerStr "") = true := by
      simp only [strContains, lowerStr]
      exact scanContains_nil _
    simp [FilterCriteria.Matches, FilterCriteria.IsEmpty, hnil]
  · have hni : (⟨"", p, ""⟩ : FilterCriteria).IsEmpty = false := by
      simp [FilterCriteria.IsEmpty, hp]
    simp [FilterCriteria.Matches, hni, hp]

/-! ## Claim C10: a scan is a deterministic function of the snapshot -/

/-- Claim C10: two scan calls with an empty state filter against the same
OS snapshot (same connection table, same resolver answers) produce
set-equal entry lists — each call uses its own fresh per-scan cache, and
the result depends only on the observed snapshot. -/
theorem C10_scan_deterministic (os os' : ScanOS)
    (hconns : os.conns = os'.conns)
    (hget : ∀ p, os.getProcessInfo p = os'.getProcessInfo p) :
    (GetConnections os []).Perm (GetConnections os' []) := by
  obtain ⟨c, g⟩ := os
  obtain ⟨c', g'⟩ := os'
  dsimp only at hconns hget
  subst hconns
  have : g = g' := funext hget
  subst this
  exact List.Perm.refl _

/-- Mocked snapshot for C10. -/
def c10OS : ScanOS :=
  ⟨[⟨42, 1, "LISTEN", "", 8080⟩], fun p => some ⟨p, "app", "", 1, 0, 0⟩⟩

/-- Witness for C10: consecutive scans of the unchanged mocked snapshot
are set-equal. -/
theorem C10_scan_deterministic_witness :
    (GetConnections c10OS []).Perm (GetConnections c10OS []) :=
  C10_scan_deterministic c10OS c10OS rfl (fun _ => rfl)

end PortExec
